import Mathlib

set_option maxRecDepth 100000

/-!
Verification development for the NCM container decoder (`ncmdump.py`).

Bytes are modelled as `Nat` (values 0–255 in the source; the XOR and mod-256
arithmetic below is explicit).  External collaborators (the AES-ECB block
cipher from PyCryptodome, `base64.b64decode`, `json.loads`) are not code of
this repository; they are taken as function parameters at the interface
boundary, exactly where the source calls them.
-/

/-- Swap the entries at positions `i` and `j` of a list, as the Python
`s[i], s[j] = s[j], s[i]` on a `bytearray`.  Out-of-range positions are read
as 0 and written as no-ops (never exercised by the cipher, whose indices are
always `< 256`). -/
def listSwap (l : List Nat) (i j : Nat) : List Nat :=
  let vi := l.getD i 0
  let vj := l.getD j 0
  (l.set i vj).set j vi

/-- One step of the standard RC4 key-scheduling loop of `NCMRC4.__init__`:
`j = (j + s_box[i] + key[i % len(key)]) & 0xFF` followed by the swap of
`s_box[i]` and `s_box[j]`.  State is `(s_box, j)`. -/
def ksaStep (key : List Nat) (st : List Nat × Nat) (i : Nat) : List Nat × Nat :=
  let j := (st.2 + st.1.getD i 0 + key.getD (i % key.length) 0) % 256
  (listSwap st.1 i j, j)

/-- The permutation table produced by the standard RC4 init loop of
`NCMRC4.__init__` (`for i in range(256)` over `ksaStep`, starting from
`s_box = bytearray(range(256))`, `j = 0`). -/
def ksa (key : List Nat) : List Nat :=
  ((List.range 256).foldl (ksaStep key) (List.range 256, 0)).1

/-- The non-standard key-box derivation of `NCMRC4.__init__`: for each
`i < 256`, `j = (i+1) & 0xFF`, `s_j = s[j]`, `s_jj = s[(s_j + j) & 0xFF]`,
`key_box[i] = s[(s_jj + s_j) & 0xFF]`. -/
def keyBoxGen (s : List Nat) : List Nat :=
  (List.range 256).map (fun i =>
    let j := (i + 1) % 256
    let sj := s.getD j 0
    let sjj := s.getD ((sj + j) % 256) 0
    s.getD ((sjj + sj) % 256) 0)

/-- The state of an `NCMRC4` engine instance: the key, the RC4 permutation
`_s_box`, the derived `_key_box`, and the position counter `_key_pos`. -/
structure NCMRC4 where
  key : List Nat
  sBox : List Nat
  keyBox : List Nat
  keyPos : Nat
deriving DecidableEq

/-- The engine state `NCMRC4.__init__` builds for a (non-empty) key:
`_s_box` from the standard RC4 init, `_key_box` from the non-standard
derivation, `_key_pos = 0`. -/
def NCMRC4.fresh (key : List Nat) : NCMRC4 :=
  { key := key, sBox := ksa key, keyBox := keyBoxGen (ksa key), keyPos := 0 }

/-- `NCMRC4.__init__`.  An empty key makes the Python subscript
`key[i % len(key)]` raise `ZeroDivisionError` (`i % 0`), so construction is
modelled as `Option`: `none` exactly when the key is empty. -/
def NCMRC4.init : List Nat → Option NCMRC4
  | [] => none
  | b :: k => some (NCMRC4.fresh (b :: k))

/-- The byte loop of `NCMRC4.decrypt`: XOR each input byte with
`key_box[key_pos]`, then advance `key_pos` (wrapping `255 → 0` via the
`if self._key_pos >= 255` branch).  Returns the output bytes and the final
position. -/
def decryptLoop (keyBox : List Nat) : List Nat → Nat → List Nat × Nat
  | [], pos => ([], pos)
  | b :: rest, pos =>
    let out := b ^^^ keyBox.getD pos 0
    let next := if pos ≥ 255 then 0 else pos + 1
    let tail := decryptLoop keyBox rest next
    (out :: tail.1, tail.2)

/-- `NCMRC4.decrypt`: produces the plaintext and the engine after the call
(only `_key_pos` is assigned in the loop body). -/
def NCMRC4.decrypt (e : NCMRC4) (ciphertext : List Nat) : List Nat × NCMRC4 :=
  let r := decryptLoop e.keyBox ciphertext e.keyPos
  (r.1, { e with keyPos := r.2 })

/-- A sequence of `decrypt` calls on one engine, returning the final engine
state. -/
def NCMRC4.decryptMany (e : NCMRC4) (cts : List (List Nat)) : NCMRC4 :=
  cts.foldl (fun acc ct => (acc.decrypt ct).2) e

/-- `transform(fresh_engine(key), transform(fresh_engine(key), payload))`:
both calls use a freshly constructed engine (position counter 0); `none`
when the engine cannot be constructed. -/
def doubleTransform (key payload : List Nat) : Option (List Nat) :=
  (NCMRC4.init key).map (fun e => (e.decrypt (e.decrypt payload).1).1)

/-- A concrete engine: the one `NCMRC4.init [1]` constructs. -/
def engine1 : NCMRC4 := NCMRC4.fresh [1]

lemma fresh_key (key : List Nat) : (NCMRC4.fresh key).key = key := by
  dsimp only [NCMRC4.fresh]

lemma fresh_sBox (key : List Nat) : (NCMRC4.fresh key).sBox = ksa key := by
  dsimp only [NCMRC4.fresh]

lemma fresh_keyBox (key : List Nat) : (NCMRC4.fresh key).keyBox = keyBoxGen (ksa key) := by
  dsimp only [NCMRC4.fresh]

lemma fresh_keyPos (key : List Nat) : (NCMRC4.fresh key).keyPos = 0 := by
  dsimp only [NCMRC4.fresh]

lemma decryptLoop_length (kb : List Nat) (l : List Nat) (pos : Nat) :
    ((decryptLoop kb l pos).1).length = l.length := by
  induction l generalizing pos with
  | nil => rfl
  | cons b rest ih => simp [decryptLoop, ih]

lemma xor_cancel_back (b k : Nat) : b ^^^ k ^^^ k = b := by
  rw [Nat.xor_assoc, Nat.xor_self, Nat.xor_zero]

lemma decryptLoop_invol (kb : List Nat) (l : List Nat) (pos : Nat) :
    (decryptLoop kb (decryptLoop kb l pos).1 pos).1 = l := by
  induction l generalizing pos with
  | nil => rfl
  | cons b rest ih => simp [decryptLoop, ih, xor_cancel_back]

lemma init_of_ne_nil {key : List Nat} (h : key ≠ []) :
    NCMRC4.init key = some (NCMRC4.fresh key) := by
  cases key with
  | nil => exact absurd rfl h
  | cons b k => rfl

lemma init_eq_fresh {key : List Nat} {e : NCMRC4} (h : NCMRC4.init key = some e) :
    e = NCMRC4.fresh key := by
  cases key with
  | nil => exact absurd h (by simp [NCMRC4.init])
  | cons b k =>
    rw [NCMRC4.init, Option.some.injEq] at h
    exact h.symm

lemma decrypt_keyBox (e : NCMRC4) (ct : List Nat) :
    ((e.decrypt ct).2).key = e.key ∧ ((e.decrypt ct).2).sBox = e.sBox ∧
      ((e.decrypt ct).2).keyBox = e.keyBox := by
  dsimp only [NCMRC4.decrypt]
  exact ⟨rfl, rfl, rfl⟩

lemma doubleTransform_of_ne_nil (key payload : List Nat) (h : key ≠ []) :
    doubleTransform key payload = some payload := by
  rw [doubleTransform, init_of_ne_nil h]
  show some ((NCMRC4.fresh key).decrypt ((NCMRC4.fresh key).decrypt payload).1).1 = some payload
  dsimp only [NCMRC4.decrypt]
  rw [decryptLoop_invol]

lemma getD_map_range (f : Nat → Nat) (n i : Nat) (h : i < n) :
    ((List.range n).map f).getD i 0 = f i := by
  rw [List.getD_eq_getElem?_getD, List.getElem?_map, List.getElem?_range h]
  rfl

lemma take_append_len (a b : List Nat) (n : Nat) (h : a.length = n) :
    (a ++ b).take n = a := by subst h; simp

lemma drop_append_len (a b : List Nat) (n : Nat) (h : a.length = n) :
    (a ++ b).drop n = b := by subst h; simp

/-! ## PKCS#7 padding (`Crypto.Util.Padding`, called by the source) -/

/-- `Crypto.Util.Padding.pad(data, block_size, "pkcs7")`: append
`block_size - len % block_size` copies of that count. -/
def padPkcs7 (blockSize : Nat) (data : List Nat) : List Nat :=
  let padLen := blockSize - data.length % blockSize
  data ++ List.replicate padLen padLen

/-- `Crypto.Util.Padding.unpad(data, block_size, "pkcs7")`: `none` models the
`ValueError` raised on zero-length input, length not a multiple of the block
size, a pad count outside `1 ..= min blockSize len`, or pad bytes that are
not all equal to the count. -/
def unpadPkcs7 (blockSize : Nat) (data : List Nat) : Option (List Nat) :=
  if data.length = 0 then none
  else if data.length % blockSize ≠ 0 then none
  else
    let padLen := data.getLastD 0
    if padLen < 1 ∨ padLen > min blockSize data.length then none
    else if data.drop (data.length - padLen) ≠ List.replicate padLen padLen then none
    else some (data.take (data.length - padLen))

/-! ## Fixed constants of `NeteaseCloudMusicFile` -/

/-- `MAGIC_HEADER = b"CTENFDAM"`. -/
def MAGIC_HEADER : List Nat := [67, 84, 69, 78, 70, 68, 65, 77]

/-- `RC4_KEY_XORBYTE = 0x64`. -/
def RC4_KEY_XORBYTE : Nat := 0x64

/-- `METADATA_XORBYTE = 0x63`. -/
def METADATA_XORBYTE : Nat := 0x63

/-- The bytes of `b"neteasecloudmusic"`, the argument of the `lstrip` call in
`_decrypt_rc4_key`. -/
def RC4_KEY_PREFIX : List Nat :=
  [110, 101, 116, 101, 97, 115, 101, 99, 108, 111, 117, 100, 109, 117, 115, 105, 99]

/-- The bytes of `b"163 key(Don't modify):"`, the argument of the first
`lstrip` call in `_decrypt_metadata`. -/
def METADATA_PREFIX : List Nat :=
  [49, 54, 51, 32, 107, 101, 121, 40, 68, 111, 110, 39, 116, 32, 109, 111,
   100, 105, 102, 121, 41, 58]

/-- The bytes of `b"music:"`, the argument of the second `lstrip` call in
`_decrypt_metadata`. -/
def MUSIC_PREFIX : List Nat := [109, 117, 115, 105, 99, 58]

/-- Python `bytes.lstrip(chars)`: remove every leading byte that occurs
anywhere in `chars` (a character *set*, not a prefix). -/
def lstripSet (chars : List Nat) : List Nat → List Nat
  | [] => []
  | b :: rest => if b ∈ chars then lstripSet chars rest else b :: rest

/-! ## Key Unlocker (`_decrypt_rc4_key`)

The AES-ECB block cipher is PyCryptodome code, not code of this repository;
it enters only through `cryptor.decrypt` (and, for synthesizing ciphertexts,
its inverse `encrypt`), so it is passed as a function parameter `aesDec`
(resp. `aesEnc`) on the byte-sequence level. -/

/-- `_decrypt_rc4_key`: XOR the key segment with `0x64`, AES-ECB-decrypt,
PKCS#7-unpad with block size 16 (`len(AES_KEY_RC4_KEY)`), then
`lstrip(b"neteasecloudmusic")`.  `Except.error` models the `ValueError`
from `unpad` propagating to the caller. -/
def decryptRc4Key (aesDec : List Nat → List Nat) (rc4KeyEnc : List Nat) :
    Except Unit (List Nat) :=
  let xored := rc4KeyEnc.map (fun b => b ^^^ RC4_KEY_XORBYTE)
  match unpadPkcs7 16 (aesDec xored) with
  | none => Except.error ()
  | some pt => Except.ok (lstripSet RC4_KEY_PREFIX pt)

/-- The synthetic key segment of the round-trip claim: prepend
`b"neteasecloudmusic"` to the raw key, PKCS#7-pad to 16 bytes, AES-ECB
encrypt, XOR every byte with `0x64` (the inverse of the unlock steps). -/
def synthKeySegment (aesEnc : List Nat → List Nat) (rawKey : List Nat) : List Nat :=
  (aesEnc (padPkcs7 16 (RC4_KEY_PREFIX ++ rawKey))).map (fun b => b ^^^ RC4_KEY_XORBYTE)

/-! ## Metadata Extractor (`_decrypt_metadata`)

`base64.b64decode` and `json.loads` are Python standard-library code, not
code of this repository.  `b64decode` is passed as a parameter (it can raise
`binascii.Error`, hence `Except`); the pipeline is modelled up to the bytes
handed to `json.loads`, which only runs after a successful unpad and so does
not affect the empty-segment or invalid-padding behaviour. -/

/-- `_decrypt_metadata`, which tests the *declared* segment size
(`self._metadata_enc_size <= 0`), not the bytes read.  `Except.ok none`
models the `self._metadata = {}` branch (empty record, no decryption
attempted); `Except.ok (some bs)` models reaching `json.loads` with bytes
`bs`; `Except.error ()` models an exception (from `b64decode` or `unpad`)
escaping to the caller. -/
def decryptMetadata (b64decode : List Nat → Except Unit (List Nat))
    (aesDec : List Nat → List Nat) (metadataEncSize : Nat) (metadataEnc : List Nat) :
    Except Unit (Option (List Nat)) :=
  if metadataEncSize ≤ 0 then Except.ok none
  else
    let xored := metadataEnc.map (fun b => b ^^^ METADATA_XORBYTE)
    match b64decode (lstripSet METADATA_PREFIX xored) with
    | Except.error () => Except.error ()
    | Except.ok raw =>
      match unpadPkcs7 16 (aesDec raw) with
      | none => Except.error ()
      | some metadata => Except.ok (some (lstripSet MUSIC_PREFIX metadata))

/-! ## Container Parser (`_parse`)

Python's `file.read(n)` returns *at most* `n` bytes and raises nothing at
end of file, so every read is modelled as `take`/`drop`; `int.from_bytes` of
the bytes actually read (possibly fewer than 4, possibly none) is
little-endian with the empty sequence decoding to 0. -/

/-- `int.from_bytes(bs, "little")`. -/
def intFromBytesLE (bs : List Nat) : Nat :=
  bs.foldr (fun b acc => b + 256 * acc) 0

/-- The little-endian 4-byte encoding of `n < 2^32`, for building synthetic
containers. -/
def bytesLE4 (n : Nat) : List Nat :=
  [n % 256, n / 256 % 256, n / 65536 % 256, n / 16777216 % 256]

/-- The fields `_parse` stores: header, the two unknown gaps, each declared
segment size alongside the bytes actually read, the checksum, and the
residual audio ciphertext. -/
structure NCMFile where
  hdr : List Nat
  gap1 : List Nat
  rc4KeyEncSize : Nat
  rc4KeyEnc : List Nat
  metadataEncSize : Nat
  metadataEnc : List Nat
  crc32 : Nat
  gap2 : List Nat
  coverDataSize : Nat
  coverData : List Nat
  musicDataEnc : List Nat
deriving DecidableEq

/-- `NeteaseCloudMusicFile._parse` on the file's byte contents.
`Except.error` models the `TypeError` raised on a magic-header mismatch —
the only check the function makes; every subsequent `read` silently yields
the bytes still available. -/
def parse (data : List Nat) : Except Unit NCMFile :=
  let hdr := data.take 8
  let r0 := data.drop 8
  if hdr ≠ MAGIC_HEADER then Except.error ()
  else
    let gap1 := r0.take 2
    let r1 := r0.drop 2
    let keySize := intFromBytesLE (r1.take 4)
    let r2 := r1.drop 4
    let keyEnc := r2.take keySize
    let r3 := r2.drop keySize
    let metaSize := intFromBytesLE (r3.take 4)
    let r4 := r3.drop 4
    let metaEnc := r4.take metaSize
    let r5 := r4.drop metaSize
    let crc := intFromBytesLE (r5.take 4)
    let r6 := r5.drop 4
    let gap2 := r6.take 5
    let r7 := r6.drop 5
    let coverSize := intFromBytesLE (r7.take 4)
    let r8 := r7.drop 4
    let cover := r8.take coverSize
    let r9 := r8.drop coverSize
    Except.ok
      { hdr := hdr, gap1 := gap1, rc4KeyEncSize := keySize, rc4KeyEnc := keyEnc,
        metadataEncSize := metaSize, metadataEnc := metaEnc, crc32 := crc,
        gap2 := gap2, coverDataSize := coverSize, coverData := cover,
        musicDataEnc := r9 }

/-- A container laid out as `_parse` expects: magic, 2 reserved bytes,
length-prefixed key segment, length-prefixed metadata segment, 4-byte
checksum, 5 reserved bytes, length-prefixed cover segment, residual audio. -/
def buildContainer (gap1 keySeg metaSeg : List Nat) (crc : Nat)
    (gap2 coverSeg audioSeg : List Nat) : List Nat :=
  MAGIC_HEADER ++ gap1 ++ bytesLE4 keySeg.length ++ keySeg ++
    bytesLE4 metaSeg.length ++ metaSeg ++ bytesLE4 crc ++ gap2 ++
    bytesLE4 coverSeg.length ++ coverSeg ++ audioSeg

/-! ## Audio Assembler (`dump_music`) and the per-file driver body

File writes and log lines are modelled as an ordered event trace; the
tag-embedding collaborators (`mutagen`) are opaque events. -/

/-- Observable actions of `dump_music` and of the `__main__` per-file
block. -/
inductive DumpEvent where
  /-- `_dump_music`: `path.write_bytes(self._music_data)`. -/
  | writeMusic (data : List Nat)
  /-- `_addinfoflac(path)` ran. -/
  | addFlacInfo
  /-- `_addinfomp3(path)` ran. -/
  | addMp3Info
  /-- `dump_metadata(output_path)` ran. -/
  | dumpMetadataFile
  /-- `dump_cover(output_path)` ran. -/
  | dumpCoverFile
  /-- `progress.log("ERROR ...")` in the driver's `except` clause. -/
  | logError
  /-- `progress.log("WARNING ... no metadata found")` in the `else` clause. -/
  | logWarningNoMetadata
  /-- `progress.log("WARNING ... no cover data found")` in the `else` clause. -/
  | logWarningNoCover
deriving DecidableEq

/-- `dump_music`: `_dump_music` writes the raw decrypted bytes first; then
the format tag selects a tagging routine, and any other tag raises
`NotImplementedError` (`false` = the call raised). -/
def dumpMusic (fileType : String) (musicData : List Nat) : List DumpEvent × Bool :=
  if fileType = "flac" then ([DumpEvent.writeMusic musicData, DumpEvent.addFlacInfo], true)
  else if fileType = "mp3" then ([DumpEvent.writeMusic musicData, DumpEvent.addMp3Info], true)
  else ([DumpEvent.writeMusic musicData], false)

/-- The `__main__` per-file body after a successful `decrypt()`:
`dump_music`, then (inside the same `try`) the optional metadata and cover
dumps; on any exception the `except` clause logs an ERROR and the remaining
statements of the `try` block are skipped; the `else` clause (success only)
logs the no-metadata / no-cover warnings. -/
def processFile (fileType : String) (musicData : List Nat)
    (hasMetadata hasCover dumpMetadataFlag dumpCoverFlag : Bool) : List DumpEvent :=
  let r := dumpMusic fileType musicData
  if r.2 then
    r.1 ++ (if dumpMetadataFlag then [DumpEvent.dumpMetadataFile] else []) ++
      (if dumpCoverFlag then [DumpEvent.dumpCoverFile] else []) ++
      (if hasMetadata then [] else [DumpEvent.logWarningNoMetadata]) ++
      (if hasCover then [] else [DumpEvent.logWarningNoCover])
  else r.1 ++ [DumpEvent.logError]

/-! ## Helper lemmas -/

lemma decrypt_decrypt (e : NCMRC4) (payload : List Nat) :
    ((e.decrypt ((e.decrypt payload).1)).1) = payload := by
  dsimp only [NCMRC4.decrypt]
  rw [decryptLoop_invol]

lemma decrypt_length (e : NCMRC4) (ct : List Nat) :
    ((e.decrypt ct).1).length = ct.length := by
  dsimp only [NCMRC4.decrypt]
  rw [decryptLoop_length]

lemma intFromBytesLE_bytesLE4 (n : Nat) (h : n < 2 ^ 32) :
    intFromBytesLE (bytesLE4 n) = n := by
  simp only [bytesLE4, intFromBytesLE, List.foldr]
  omega

lemma bytesLE4_length (n : Nat) : (bytesLE4 n).length = 4 := rfl

/-! ## Claims -/

/-- C1 (claim as stated is refuted): with the empty key there is no "fresh
engine" at all — `NCMRC4.__init__` raises `ZeroDivisionError` — so the
double transform does not return the payload. -/
theorem C1_counterexample : ¬ (doubleTransform [] [0] = some [0]) := by
  decide

/-- C1 (amended): for every *non-empty* key and every payload, applying the
transform twice, each time with a freshly constructed engine (position
counter 0), returns the original payload. -/
theorem C1_double_transform_id (key payload : List Nat) (h : key ≠ []) :
    doubleTransform key payload = some payload :=
  doubleTransform_of_ne_nil key payload h

/-- C1 witness: the amended theorem at key `[1]`, payload `[10, 200, 37]`. -/
theorem C1_witness : doubleTransform [1] [10, 200, 37] = some [10, 200, 37] :=
  C1_double_transform_id [1] [10, 200, 37] (by decide)

/-- C5: for an engine constructed from `key`, (i) the key box satisfies the
spec's formula: for every `i < 256`, with `S = ksa key`, `j = (i+1) % 256`,
`a = S[j]`, `b = S[(a+j) % 256]`, `key_box[i] = S[(a+b) % 256]`; (ii) the
table is not modified by `decrypt`; (iii) any engine constructed from the
same key has the identical table. -/
theorem C5_keybox_formula (key : List Nat) (e : NCMRC4)
    (h : NCMRC4.init key = some e) :
    (∀ i, i < 256 →
      e.keyBox.getD i 0 =
        (ksa key).getD
          (((ksa key).getD ((i + 1) % 256) 0 +
            (ksa key).getD (((ksa key).getD ((i + 1) % 256) 0 + (i + 1) % 256) % 256) 0)
            % 256) 0) ∧
    (∀ ct, ((e.decrypt ct).2).keyBox = e.keyBox) ∧
    (∀ e2, NCMRC4.init key = some e2 → e2.keyBox = e.keyBox) := by
  have he : e = NCMRC4.fresh key := init_eq_fresh h
  subst he
  refine ⟨?_, ?_, ?_⟩
  · intro i hi
    rw [fresh_keyBox]
    generalize ksa key = s
    rw [keyBoxGen, getD_map_range _ _ _ hi]
    dsimp only
    congr 1
    omega
  · intro ct
    exact (decrypt_keyBox (NCMRC4.fresh key) ct).2.2
  · intro e2 h2
    rw [init_eq_fresh h2]

/-- C5 witness: the formula at key `[1]`, index 0, and table preservation
across a concrete `decrypt` call. -/
theorem C5_witness :
    (0 : Nat) < 256 ∧
    engine1.keyBox.getD 0 0 =
      (ksa [1]).getD
        (((ksa [1]).getD ((0 + 1) % 256) 0 +
          (ksa [1]).getD (((ksa [1]).getD ((0 + 1) % 256) 0 + (0 + 1) % 256) % 256) 0)
          % 256) 0 ∧
    ((engine1.decrypt [9]).2).keyBox = engine1.keyBox :=
  ⟨by decide, (C5_keybox_formula [1] engine1 rfl).1 0 (by decide),
    (C5_keybox_formula [1] engine1 rfl).2.1 [9]⟩

/-- C7: for every engine constructed from a key and every input byte
sequence, `decrypt` accepts the input (it is total) and its output length
equals the input length. -/
theorem C7_transform_length (key : List Nat) (e : NCMRC4)
    (h : NCMRC4.init key = some e) (ct : List Nat) :
    ((e.decrypt ct).1).length = ct.length :=
  decrypt_length e ct

/-- C7 witness: the engine built from key `[1]` on a 3-byte input. -/
theorem C7_witness : ((engine1.decrypt [10, 20, 30]).1).length = [10, 20, 30].length :=
  C7_transform_length [1] engine1 rfl [10, 20, 30]

/-- C9: across any sequence of `decrypt` calls, the key, the permutation
table `_s_box`, and the key box are unchanged — the position counter is the
only engine state `decrypt` writes. -/
theorem C9_frame (e : NCMRC4) (cts : List (List Nat)) :
    (e.decryptMany cts).key = e.key ∧ (e.decryptMany cts).sBox = e.sBox ∧
      (e.decryptMany cts).keyBox = e.keyBox := by
  induction cts generalizing e with
  | nil => exact ⟨rfl, rfl, rfl⟩
  | cons ct rest ih =>
    have hstep := decrypt_keyBox e ct
    have htail := ih ((e.decrypt ct).2)
    refine ⟨?_, ?_, ?_⟩
    · rw [NCMRC4.decryptMany, List.foldl_cons, ← NCMRC4.decryptMany, htail.1, hstep.1]
    · rw [NCMRC4.decryptMany, List.foldl_cons, ← NCMRC4.decryptMany, htail.2.1, hstep.2.1]
    · rw [NCMRC4.decryptMany, List.foldl_cons, ← NCMRC4.decryptMany, htail.2.2, hstep.2.2]

/-- C10: constructing an engine from the empty key fails (the Python key
schedule divides by `len(key) = 0`), and for every non-empty key
construction succeeds and the transform contracts — self-inverse from a
fresh engine and length preservation — hold. -/
theorem C10_empty_key_precondition :
    NCMRC4.init [] = none ∧
    ∀ key, key ≠ [] → ∃ e, NCMRC4.init key = some e ∧
      (∀ payload, ((e.decrypt ((e.decrypt payload).1)).1) = payload) ∧
      (∀ ct, ((e.decrypt ct).1).length = ct.length) := by
  refine ⟨rfl, fun key h => ⟨NCMRC4.fresh key, init_of_ne_nil h, ?_, ?_⟩⟩
  · intro payload
    exact decrypt_decrypt (NCMRC4.fresh key) payload
  · intro ct
    exact decrypt_length (NCMRC4.fresh key) ct

/-- C10 witness: the non-empty-key half at key `[1]`. -/
theorem C10_witness :
    ∃ e, NCMRC4.init [1] = some e ∧
      (∀ payload, ((e.decrypt ((e.decrypt payload).1)).1) = payload) ∧
      (∀ ct, ((e.decrypt ct).1).length = ct.length) :=
  C10_empty_key_precondition.2 [1] (by decide)

/-- C2 (claim as stated is refuted): a non-empty metadata segment whose
decryption yields invalid PKCS#7 padding (here the single byte `0x63`,
which XORs to `[0]`, passes through an identity base64/AES collaborator,
and fails `unpad`) makes `_decrypt_metadata` raise instead of returning an
empty record. -/
theorem C2_counterexample :
    decryptMetadata (fun l => Except.ok l) (fun l => l) 1 [99] = Except.error () ∧
    unpadPkcs7 16 [0] = none :=
  ⟨rfl, rfl⟩

/-- C2 (amended): on a declared size of 0 the extractor returns the empty
record without touching the ciphertext; but when the pipeline reaches
`unpad` with invalid PKCS#7 padding, the `ValueError` escapes
`_decrypt_metadata` to the caller (there is no exception handler around the
decryption). -/
theorem C2_empty_and_badpad (b64 : List Nat → Except Unit (List Nat))
    (aesDec : List Nat → List Nat) :
    (∀ enc, decryptMetadata b64 aesDec 0 enc = Except.ok none) ∧
    (∀ size enc raw, 0 < size →
      b64 (lstripSet METADATA_PREFIX (enc.map (fun b => b ^^^ METADATA_XORBYTE))) =
        Except.ok raw →
      unpadPkcs7 16 (aesDec raw) = none →
      decryptMetadata b64 aesDec size enc = Except.error ()) := by
  constructor
  · intro enc
    rfl
  · intro size enc raw hs hb hu
    simp only [decryptMetadata, if_neg (show ¬ size ≤ 0 by omega), hb, hu]

/-- C2 witness: the amended bad-padding branch at the counterexample's
concrete input. -/
theorem C2_witness :
    decryptMetadata (fun l => Except.ok l) (fun l => l) 1 [99] = Except.error () :=
  (C2_empty_and_badpad (fun l => Except.ok l) (fun l => l)).2 1 [99] [0]
    (by decide) rfl rfl

/-- C3 (code bug): the source strips the key prefix with
`bytes.lstrip(b"neteasecloudmusic")`, which removes every leading byte drawn
from that 17-byte *character set*, not the literal prefix.  For
`RawKey = b"test"` (all four bytes are in the set) the synthetic round trip
returns `b""`, not `b"test"` — against the spec's step "strip that prefix;
the remainder is RawKey".  Evaluated here with the identity block cipher. -/
theorem C3_lstrip_divergence :
    decryptRc4Key (fun l => l) (synthKeySegment (fun l => l) [116, 101, 115, 116]) =
      Except.ok [] ∧
    ([] : List Nat) ≠ [116, 101, 115, 116] :=
  ⟨rfl, by decide⟩

/-- C4 (claim as stated is refuted): a container that declares a 5-byte key
segment but ends after 2 bytes parses *successfully* — Python `read`
returns the bytes still available and `_parse` never compares them against
the declared length, so every later field is read as empty. -/
theorem C4_counterexample :
    parse (MAGIC_HEADER ++ [0, 0] ++ [5, 0, 0, 0] ++ [1, 2]) =
      Except.ok
        { hdr := MAGIC_HEADER, gap1 := [0, 0], rc4KeyEncSize := 5, rc4KeyEnc := [1, 2],
          metadataEncSize := 0, metadataEnc := [], crc32 := 0, gap2 := [],
          coverDataSize := 0, coverData := [], musicDataEnc := [] } := by
  rfl

/-- C4 (amended): the parser fails if and only if the first 8 bytes differ
from the magic header; with a valid magic it always returns a container,
truncating each declared segment to the bytes actually available. -/
theorem C4_error_iff_bad_magic (data : List Nat) :
    parse data = Except.error () ↔ data.take 8 ≠ MAGIC_HEADER := by
  by_cases h : data.take 8 = MAGIC_HEADER
  · simp [parse, h]
  · simp [parse, h]

/-- C6: parsing a container built per the fixed layout recovers the header,
the reserved gaps, the checksum, all three length-prefixed segments (a
length of 0 yields the empty — present — segment) and the residual audio
segment byte-identically. -/
theorem C6_container_roundtrip (gap1 keySeg metaSeg : List Nat) (crc : Nat)
    (gap2 coverSeg audioSeg : List Nat)
    (hg1 : gap1.length = 2) (hg2 : gap2.length = 5)
    (hk : keySeg.length < 2 ^ 32) (hm : metaSeg.length < 2 ^ 32)
    (hc : coverSeg.length < 2 ^ 32) (hcrc : crc < 2 ^ 32) :
    parse (buildContainer gap1 keySeg metaSeg crc gap2 coverSeg audioSeg) =
      Except.ok
        { hdr := MAGIC_HEADER, gap1 := gap1, rc4KeyEncSize := keySeg.length,
          rc4KeyEnc := keySeg, metadataEncSize := metaSeg.length,
          metadataEnc := metaSeg, crc32 := crc, gap2 := gap2,
          coverDataSize := coverSeg.length, coverData := coverSeg,
          musicDataEnc := audioSeg } := by
  have hmag : MAGIC_HEADER.length = 8 := rfl
  simp only [buildContainer, List.append_assoc, parse]
  rw [take_append_len _ _ _ hmag, drop_append_len _ _ _ hmag]
  rw [if_neg (by simp)]
  rw [take_append_len _ _ _ hg1, drop_append_len _ _ _ hg1]
  rw [take_append_len _ _ _ (bytesLE4_length keySeg.length),
      drop_append_len _ _ _ (bytesLE4_length keySeg.length)]
  rw [intFromBytesLE_bytesLE4 _ hk]
  rw [take_append_len _ _ _ (rfl : keySeg.length = keySeg.length),
      drop_append_len _ _ _ (rfl : keySeg.length = keySeg.length)]
  rw [take_append_len _ _ _ (bytesLE4_length metaSeg.length),
      drop_append_len _ _ _ (bytesLE4_length metaSeg.length)]
  rw [intFromBytesLE_bytesLE4 _ hm]
  rw [take_append_len _ _ _ (rfl : metaSeg.length = metaSeg.length),
      drop_append_len _ _ _ (rfl : metaSeg.length = metaSeg.length)]
  rw [take_append_len _ _ _ (bytesLE4_length crc),
      drop_append_len _ _ _ (bytesLE4_length crc)]
  rw [intFromBytesLE_bytesLE4 _ hcrc]
  rw [take_append_len _ _ _ hg2, drop_append_len _ _ _ hg2]
  rw [take_append_len _ _ _ (bytesLE4_length coverSeg.length),
      drop_append_len _ _ _ (bytesLE4_length coverSeg.length)]
  rw [intFromBytesLE_bytesLE4 _ hc]
  rw [take_append_len _ _ _ (rfl : coverSeg.length = coverSeg.length),
      drop_append_len _ _ _ (rfl : coverSeg.length = coverSeg.length)]

/-- C6 witness: a concrete container with a 2-byte key segment, length-0
metadata and cover segments (parsed as empty, not absent), and a 1-byte
audio remainder. -/
theorem C6_witness :
    parse (buildContainer [0, 0] [1, 2] [] 0 [3, 3, 3, 3, 3] [] [7]) =
      Except.ok
        { hdr := MAGIC_HEADER, gap1 := [0, 0], rc4KeyEncSize := 2, rc4KeyEnc := [1, 2],
          metadataEncSize := 0, metadataEnc := [], crc32 := 0, gap2 := [3, 3, 3, 3, 3],
          coverDataSize := 0, coverData := [], musicDataEnc := [7] } :=
  C6_container_roundtrip [0, 0] [1, 2] [] 0 [3, 3, 3, 3, 3] [] [7]
    (by decide) (by decide) (by decide) (by decide) (by decide) (by decide)

/-- C8 (claim as stated is refuted): for format tag `"xyz"` the raw audio
bytes are written, but the driver's `except` clause logs a generic ERROR —
not a warning — and the optional metadata dump requested by the flag never
runs: the `NotImplementedError` aborts the rest of that file's `try`
block. -/
theorem C8_counterexample :
    processFile "xyz" [1, 2] true true true true =
      [DumpEvent.writeMusic [1, 2], DumpEvent.logError] ∧
    DumpEvent.dumpMetadataFile ∉ [DumpEvent.writeMusic [1, 2], DumpEvent.logError] ∧
    DumpEvent.logWarningNoMetadata ∉ [DumpEvent.writeMusic [1, 2], DumpEvent.logError] :=
  ⟨rfl, by decide, by decide⟩

/-- C8 (amended): for every format tag that is neither `"flac"` nor
`"mp3"`, `dump_music` writes the raw decrypted bytes *before* raising
`NotImplementedError`; the per-file driver catches it, logs an ERROR line,
and skips the optional metadata/cover dumps — the written audio file is
untouched and the batch goes on to the next file. -/
theorem C8_unsupported_format (ft : String) (md : List Nat)
    (hasMeta hasCover dm dc : Bool) (h1 : ft ≠ "flac") (h2 : ft ≠ "mp3") :
    dumpMusic ft md = ([DumpEvent.writeMusic md], false) ∧
    processFile ft md hasMeta hasCover dm dc =
      [DumpEvent.writeMusic md, DumpEvent.logError] := by
  have hd : dumpMusic ft md = ([DumpEvent.writeMusic md], false) := by
    simp only [dumpMusic, if_neg h1, if_neg h2]
  refine ⟨hd, ?_⟩
  simp only [processFile, hd]
  rfl

/-- C8 witness: the amended theorem at format `"xyz"`. -/
theorem C8_witness :
    dumpMusic "xyz" [1, 2] = ([DumpEvent.writeMusic [1, 2]], false) ∧
    processFile "xyz" [1, 2] true true true true =
      [DumpEvent.writeMusic [1, 2], DumpEvent.logError] :=
  C8_unsupported_format "xyz" [1, 2] true true true true (by decide) (by decide)
